import Mathlib

/-!
Shallow embedding of the moltbot gateway lifecycle supervisor.

The embedding follows the current lifecycle module (the variant bundled with
the `GatewayState` Durable Object in `src/unnamed/part_000`; the file
`src/src/gateway/lifecycle.ts` is the superseded looser variant of the same
module).  External capabilities (container fetch, process listing and
discovery, process spawn/kill, port waits, log retrieval, storage mount) are
modelled as oracles: an `Env` gives the outcome of the i-th call of each
kind, and a `World` carries the mutable `GatewayStateRef`, the per-capability
call counters, a clock, and the trace of capability calls issued so far.
A JavaScript `throw` is an `Except.error` carrying the message; `try/catch`
becomes a `match` on that `Except`.
-/

namespace Moltbot

/-- Status of a sandbox process as the lifecycle logic reads `Process.status`
(the source compares it with the literals `running` and `starting`). -/
inductive ProcStatus where
  | running
  | starting
  | stopped
  deriving DecidableEq, Repr

/-- A sandbox process handle, as far as the lifecycle logic reads it. -/
structure ProcInfo where
  id : String
  status : ProcStatus
  deriving DecidableEq, Repr

/-- Result of `process.getLogs()`: `stdout` and `stderr` are optional
(`undefined` in TS is `none`). -/
structure Logs where
  stdout : Option String
  stderr : Option String
  deriving DecidableEq, Repr

/-- Outcomes of the external capability calls, indexed by the call counter of
each kind.  `none` / `Except.error` stands for a promise rejection (the
carried string is the thrown error's message).  `findProc` is modelled from
the spec: `findExistingMoltbotProcess` (module `./process`, not part of the
sources here) realizes the capability `findBySignature() -> process|none`,
which has no error outcome.  `waitForProc` models the helper
`waitForProcess(proc, timeout)` (module `./utils`, also external here), which
may reject; every use in the lifecycle module is inside a `try`. -/
structure Env where
  fetchResult : Nat → Option Nat
  findProc : Nat → Option ProcInfo
  portWait : Nat → Option String
  killResult : Nat → Option String
  startResult : Nat → Except String ProcInfo
  listResult : Nat → Except String (List ProcInfo)
  logsResult : Nat → Except String Logs
  waitForProc : Nat → Option String
  mountResult : Nat → Option String

/-- Decidable equality for `Except`, so concrete runs can be checked by
`decide`. -/
instance {ε α : Type} [DecidableEq ε] [DecidableEq α] :
    DecidableEq (Except ε α) := fun x y =>
  match x, y with
  | Except.ok a, Except.ok b =>
    match decEq a b with
    | isTrue h => isTrue (congrArg Except.ok h)
    | isFalse h => isFalse (fun hc => h (by injection hc))
  | Except.error a, Except.error b =>
    match decEq a b with
    | isTrue h => isTrue (congrArg Except.error h)
    | isFalse h => isFalse (fun hc => h (by injection hc))
  | Except.ok _, Except.error _ => isFalse (fun hc => Except.noConfusion hc)
  | Except.error _, Except.ok _ => isFalse (fun hc => Except.noConfusion hc)

/-- One external capability call, as recorded in the trace. -/
inductive Event where
  | healthFetch
  | discover
  | portWaitCall
  | killCall
  | startProc (cmd : String)
  | listCall
  | logsCall
  | procWaitCall
  | mountCall
  | sleep (ms : Nat)
  deriving DecidableEq, Repr

/-- How many calls of each capability kind have been issued. -/
structure Counters where
  fetch : Nat
  find : Nat
  port : Nat
  kill : Nat
  start : Nat
  list : Nat
  logs : Nat
  wait : Nat
  mount : Nat
  deriving DecidableEq, Repr

/-- `GatewayStateRef`: the state held by the Durable Object and mutated in
place by the lifecycle engine. -/
structure GatewayStateRef where
  gatewayProcessId : Option String
  lastGatewayStartAttempt : Nat
  gatewayReady : Bool
  lastHealthCheck : Nat
  deriving DecidableEq, Repr

/-- The world a lifecycle operation runs in: the gateway state, a wall clock
(milliseconds; it advances only across modelled sleeps), the capability call
counters, and the chronological trace of capability calls. -/
structure World where
  gw : GatewayStateRef
  clock : Nat
  ctr : Counters
  trace : List Event
  deriving DecidableEq, Repr

/-- Initial counters: no capability call issued yet. -/
def Counters.zero : Counters :=
  { fetch := 0, find := 0, port := 0, kill := 0, start := 0, list := 0,
    logs := 0, wait := 0, mount := 0 }

/-- The state the Durable Object constructor builds: nothing tracked yet. -/
def initialGatewayState : GatewayStateRef :=
  { gatewayProcessId := none, lastGatewayStartAttempt := 0,
    gatewayReady := false, lastHealthCheck := 0 }

/-- A fresh world around a given gateway state. -/
def World.fresh (g : GatewayStateRef) : World :=
  { gw := g, clock := 0, ctr := Counters.zero, trace := [] }

/-- `Date.now()`.  Time advances only across sleeps in this model, so
reading the clock has no side effect. -/
def nowW (w : World) : Nat := w.clock

/-- An awaited `setTimeout` of `ms` milliseconds. -/
def sleepW (ms : Nat) (w : World) : World :=
  { w with clock := w.clock + ms, trace := w.trace ++ [Event.sleep ms] }

/-- `sandbox.containerFetch` raced against the health-check timeout: `none`
is a rejection (network error or timeout), `some s` a response with status
`s`. -/
def callHealthFetch (env : Env) (w : World) : Option Nat × World :=
  (env.fetchResult w.ctr.fetch,
   { w with ctr := { w.ctr with fetch := w.ctr.fetch + 1 },
            trace := w.trace ++ [Event.healthFetch] })

/-- `findExistingMoltbotProcess sandbox` (capability `findBySignature`). -/
def callDiscover (env : Env) (w : World) : Option ProcInfo × World :=
  (env.findProc w.ctr.find,
   { w with ctr := { w.ctr with find := w.ctr.find + 1 },
            trace := w.trace ++ [Event.discover] })

/-- `process.waitForPort(MOLTBOT_PORT, {mode: tcp, timeout})`: `none` means
the port opened in time, `some e` a rejection with message `e`. -/
def callPortWait (env : Env) (w : World) : Option String × World :=
  (env.portWait w.ctr.port,
   { w with ctr := { w.ctr with port := w.ctr.port + 1 },
            trace := w.trace ++ [Event.portWaitCall] })

/-- `process.kill()`: `none` is success, `some e` a rejection. -/
def callKill (env : Env) (w : World) : Option String × World :=
  (env.killResult w.ctr.kill,
   { w with ctr := { w.ctr with kill := w.ctr.kill + 1 },
            trace := w.trace ++ [Event.killCall] })

/-- `sandbox.startProcess cmd`: yields the spawned process or a rejection. -/
def callStart (env : Env) (cmd : String) (w : World) :
    Except String ProcInfo × World :=
  (env.startResult w.ctr.start,
   { w with ctr := { w.ctr with start := w.ctr.start + 1 },
            trace := w.trace ++ [Event.startProc cmd] })

/-- `sandbox.listProcesses()`. -/
def callList (env : Env) (w : World) : Except String (List ProcInfo) × World :=
  (env.listResult w.ctr.list,
   { w with ctr := { w.ctr with list := w.ctr.list + 1 },
            trace := w.trace ++ [Event.listCall] })

/-- `process.getLogs()`. -/
def callGetLogs (env : Env) (w : World) : Except String Logs × World :=
  (env.logsResult w.ctr.logs,
   { w with ctr := { w.ctr with logs := w.ctr.logs + 1 },
            trace := w.trace ++ [Event.logsCall] })

/-- `waitForProcess(proc, timeout)`: `none` is completion, `some e` a
rejection. -/
def callProcWait (env : Env) (w : World) : Option String × World :=
  (env.waitForProc w.ctr.wait,
   { w with ctr := { w.ctr with wait := w.ctr.wait + 1 },
            trace := w.trace ++ [Event.procWaitCall] })

/-- `mountR2Storage(sandbox, env)` (capability `mount`, idempotent): `none`
is success, `some e` a rejection.  The module `./r2` is external to these
sources; the ensure logic awaits it without a `try`, so a rejection
propagates. -/
def callMount (env : Env) (w : World) : Option String × World :=
  (env.mountResult w.ctr.mount,
   { w with ctr := { w.ctr with mount := w.ctr.mount + 1 },
            trace := w.trace ++ [Event.mountCall] })

/-! Constants of the lifecycle module. -/

/-- Gateway service port (`MOLTBOT_PORT` from `../config`; the module's own
comments and `GATEWAY_WS_URL` fix it at 18789). -/
def MOLTBOT_PORT : Nat := 18789

def GATEWAY_WS_URL : String := "ws://localhost:18789"

def CLAWDBOT_DATA_DIR : String := "/root/.clawdbot"

/-- The exact enumerated lock paths (`GATEWAY_LOCK_PATHS`). -/
def GATEWAY_LOCK_PATHS : List String :=
  ["/tmp/clawdbot-gateway.lock", CLAWDBOT_DATA_DIR ++ "/gateway.lock"]

def STOP_GRACEFUL_TIMEOUT_MS : Nat := 10000

def HEALTH_CHECK_TIMEOUT_MS : Nat := 500

def PORT_FREE_POLL_MS : Nat := 500

def PORT_FREE_DEADLINE_MS : Nat := 15000

/-- The gateway start command. -/
def startCommand : String := "/usr/local/bin/start-moltbot.sh"

/-- The graceful stop command issued by `stopGateway`. -/
def gracefulStopCommand : String :=
  "clawdbot gateway stop --url " ++ GATEWAY_WS_URL

/-- The probe command `clearLockFiles` runs for a lock path. -/
def lockTestCommand (p : String) : String :=
  "test -f \"" ++ p ++ "\" && echo \"" ++ p ++ "\" || true"

/-- The removal command `clearLockFiles` runs for a lock path. -/
def lockRemoveCommand (p : String) : String :=
  "rm -f \"" ++ p ++ "\""

/-- JavaScript `String.prototype.trim()`, modelled over the character list:
drop whitespace from both ends. -/
def jsTrim (s : String) : String :=
  ⟨((s.data.dropWhile Char.isWhitespace).reverse.dropWhile
      Char.isWhitespace).reverse⟩

/-- The error message built on a startup timeout:
`Moltbot gateway failed to start. Stderr: ...` with the JS-falsy fallback
`(empty)` (an absent or empty stderr string is falsy). -/
def startFailureMessage (stderr : Option String) : String :=
  "Moltbot gateway failed to start. Stderr: " ++
    (match stderr with
     | some s => if s = "" then "(empty)" else s
     | none => "(empty)")

/-- Health check (part_000 lines 175-189): fetch `http://localhost:18789/`
raced against the 500 ms timeout; a response counts as healthy when
`200 <= status < 500`; any rejection (error, timeout, connection refusal)
is caught and yields `false`. -/
def isGatewayHealthy (env : Env) (w : World) : Bool × World :=
  match callHealthFetch env w with
  | (some s, w1) => (decide (200 ≤ s ∧ s < 500), w1)
  | (none, w1) => (false, w1)

/-- The health policy exactly as the spec's sentence words it: the connection
succeeds and the status code is not a server error (5xx). -/
def specHealthyPolicyB : Option Nat → Bool
  | some s => decide (¬ (500 ≤ s ∧ s ≤ 599))
  | none => false

/-- One iteration batch of `clearLockFiles` (part_000 lines 196-213) for a
single lock path: probe with `test -f`, and remove only when the probe's
stdout, trimmed, equals the path.  Any rejection propagates to the single
`try` wrapped around the whole loop. -/
def clearLockOne (env : Env) (p : String) (w : World) :
    Except String Unit × World :=
  match callStart env (lockTestCommand p) w with
  | (Except.error e, w1) => (Except.error e, w1)
  | (Except.ok _pr, w1) =>
    match callProcWait env w1 with
    | (some e, w2) => (Except.error e, w2)
    | (none, w2) =>
      match callGetLogs env w2 with
      | (Except.error e, w3) => (Except.error e, w3)
      | (Except.ok lg, w3) =>
        if (match lg.stdout with
            | some s => jsTrim s == p
            | none => false : Bool) then
          match callStart env (lockRemoveCommand p) w3 with
          | (Except.error e, w4) => (Except.error e, w4)
          | (Except.ok _rm, w4) =>
            match callProcWait env w4 with
            | (some e, w5) => (Except.error e, w5)
            | (none, w5) => (Except.ok (), w5)
        else (Except.ok (), w3)

/-- `clearLockFiles` (part_000 lines 196-213): loop over the two enumerated
lock paths; the whole loop sits in one `try` whose `catch` only logs, so the
function itself never rejects. -/
def clearLockFiles (env : Env) (w : World) : Except String Unit × World :=
  match clearLockOne env (GATEWAY_LOCK_PATHS.get! 0) w with
  | (Except.error _e, w1) => (Except.ok (), w1)
  | (Except.ok (), w1) =>
    match clearLockOne env (GATEWAY_LOCK_PATHS.get! 1) w1 with
    | (Except.error _e, w2) => (Except.ok (), w2)
    | (Except.ok (), w2) => (Except.ok (), w2)

/-- Layer 1 of `stopGateway`: graceful stop via the CLI, bounded by the
graceful timeout; the `try` absorbs a rejection at any of its three awaits. -/
def stopGraceful (env : Env) (w : World) : World :=
  match callStart env gracefulStopCommand w with
  | (Except.error _e, w1) => w1
  | (Except.ok _p, w1) =>
    match callProcWait env w1 with
    | (some _e, w2) => w2
    | (none, w2) =>
      match callGetLogs env w2 with
      | (_r, w3) => w3

/-- Layer 2 of `stopGateway`: force kill by tracked id, when the listed
process with that id is `running` or `starting`; the `try` absorbs any
rejection. -/
def stopForceById (env : Env) (pid : String) (w : World) : World :=
  match callList env w with
  | (Except.error _e, w1) => w1
  | (Except.ok ps, w1) =>
    match ps.find? (fun p => p.id == pid) with
    | some p =>
      if p.status = ProcStatus.running ∨ p.status = ProcStatus.starting then
        (callKill env w1).2
      else w1
    | none => w1

/-- `stopGateway` (part_000 lines 218-256): graceful stop, then force kill by
id, then a signature sweep killing any remaining gateway process (that kill
alone wrapped in its own `try`). -/
def stopGateway (env : Env) (processId : Option String) (w : World) :
    Except String Unit × World :=
  let w1 := stopGraceful env w
  let w2 := match processId with
    | some pid => stopForceById env pid w1
    | none => w1
  match callDiscover env w2 with
  | (some _p, w3) => (Except.ok (), (callKill env w3).2)
  | (none, w3) => (Except.ok (), w3)

/-- The polling loop of `waitForPortFree` (part_000 lines 261-269): while the
clock is before the deadline, probe health; return as soon as the port is
free, else sleep one poll interval.  The fuel only guarantees totality: each
iteration advances the clock by `PORT_FREE_POLL_MS`, so with the fuel chosen
in `waitForPortFree` the clock guard fires first, and exhausted fuel behaves
exactly like an elapsed deadline (return and proceed anyway). -/
def waitForPortFreeLoop (env : Env) (deadline : Nat) :
    Nat → World → World
  | 0, w => w
  | fuel + 1, w =>
    if w.clock < deadline then
      match isGatewayHealthy env w with
      | (true, w1) => waitForPortFreeLoop env deadline fuel
          (sleepW PORT_FREE_POLL_MS w1)
      | (false, w1) => w1
    else w

/-- `waitForPortFree`: bounded poll until the health probe reports the port
free; an elapsed deadline is logged, never fatal. -/
def waitForPortFree (env : Env) (w : World) : World :=
  waitForPortFreeLoop env (nowW w + PORT_FREE_DEADLINE_MS)
    (PORT_FREE_DEADLINE_MS / PORT_FREE_POLL_MS + 1) w

/-- Step 2 of ensure (part_000 lines 286-302), entered when the health probe
succeeded: set `gatewayReady` and `lastHealthCheck` first, then discover the
live process id, retrying once after a 300 ms sleep; only when found are
`gatewayProcessId` and `lastGatewayStartAttempt` set. -/
def ensureHealthyPath (env : Env) (w : World) : Except String Unit × World :=
  let w1 := { w with gw := { w.gw with gatewayReady := true,
                                       lastHealthCheck := nowW w } }
  match callDiscover env w1 with
  | (some p, w2) =>
    (Except.ok (),
     { w2 with gw := { w2.gw with gatewayProcessId := some p.id,
                                  lastGatewayStartAttempt := nowW w2 } })
  | (none, w2) =>
    let w3 := sleepW 300 w2
    match callDiscover env w3 with
    | (some p, w4) =>
      (Except.ok (),
       { w4 with gw := { w4.gw with gatewayProcessId := some p.id,
                                    lastGatewayStartAttempt := nowW w4 } })
    | (none, w4) => (Except.ok (), w4)

/-- Steps 5 and 6 of ensure (part_000 lines 334-370): mount R2 storage (a
rejection propagates), record the start attempt, spawn the gateway process
recording its id immediately, and wait for the service port.  On a port-wait
rejection the source fetches the logs and builds `startFailureMessage`, but
it throws that Error inside the same `try` that called `getLogs`, so the
`catch (logErr)` arm intercepts it and rethrows the original port-wait
error `e` on both branches. -/
def ensureFreshStart (env : Env) (w : World) : Except String Unit × World :=
  match callMount env w with
  | (some e, w1) => (Except.error e, w1)
  | (none, w1) =>
    let w2 := { w1 with gw := { w1.gw with
                  lastGatewayStartAttempt := nowW w1 } }
    match callStart env startCommand w2 with
    | (Except.error e, w3) => (Except.error e, w3)
    | (Except.ok p, w3) =>
      let w4 := { w3 with gw := { w3.gw with gatewayProcessId := some p.id } }
      match callPortWait env w4 with
      | (none, w5) =>
        (Except.ok (),
         { w5 with gw := { w5.gw with gatewayReady := true,
                                      lastHealthCheck := nowW w5 } })
      | (some e, w5) =>
        match callGetLogs env w5 with
        | (Except.ok lg, w6) =>
          let _intended := startFailureMessage lg.stderr
          (Except.error e, w6)
        | (Except.error _le, w6) => (Except.error e, w6)

/-- Step 4 of ensure (part_000 lines 326-332) followed by the fresh start:
when a port-occupancy recheck still reports a listener, stop whatever runs,
clear the tracked id, and wait for the port to free before starting. -/
def ensureRecheck (env : Env) (w : World) : Except String Unit × World :=
  match isGatewayHealthy env w with
  | (true, w1) =>
    match stopGateway env w1.gw.gatewayProcessId w1 with
    | (Except.error e, w2) => (Except.error e, w2)
    | (Except.ok (), w2) =>
      let w3 := { w2 with gw := { w2.gw with gatewayProcessId := none } }
      ensureFreshStart env (waitForPortFree env w3)
  | (false, w1) => ensureFreshStart env w1

/-- `ensureGatewayRunningLogic` (part_000 lines 275-371): fast path on cached
ready; else health probe and the healthy path; else adopt an existing
process if its port opens in time, killing it best-effort on timeout; then
the recheck and fresh start. -/
def ensureGatewayRunningLogic (env : Env) (w : World) :
    Except String Unit × World :=
  if w.gw.gatewayReady then (Except.ok (), w)
  else
    match isGatewayHealthy env w with
    | (true, w1) => ensureHealthyPath env w1
    | (false, w1) =>
      match callDiscover env w1 with
      | (some p, w2) =>
        match callPortWait env w2 with
        | (none, w3) =>
          (Except.ok (),
           { w3 with gw := { w3.gw with
               gatewayReady := true,
               gatewayProcessId := some p.id,
               lastGatewayStartAttempt := nowW w3,
               lastHealthCheck := nowW w3 } })
        | (some _e, w3) => ensureRecheck env (callKill env w3).2
      | (none, w2) => ensureRecheck env w2

/-- `restartGatewayLogic` (part_000 lines 377-394): stop unconditionally,
clear `gatewayProcessId` and `gatewayReady`, clear the lock files, wait for
the port to free, then run ensure. -/
def restartGatewayLogic (env : Env) (w : World) :
    Except String Unit × World :=
  match stopGateway env w.gw.gatewayProcessId w with
  | (Except.error e, w1) => (Except.error e, w1)
  | (Except.ok (), w1) =>
    let w2 := { w1 with gw := { w1.gw with gatewayProcessId := none,
                                           gatewayReady := false } }
    match clearLockFiles env w2 with
    | (Except.error e, w3) => (Except.error e, w3)
    | (Except.ok (), w3) =>
      ensureGatewayRunningLogic env (waitForPortFree env w3)

/-! The Durable Object request boundary (part_000 lines 35-137). -/

/-- Routing target of `GatewayState.fetch`. -/
inductive Route where
  | ensure
  | restart
  | state
  | notFound
  deriving DecidableEq, Repr

/-- `url.pathname.replace(/^\/+/, '')`: strip the leading run of slashes. -/
def stripLeadingSlashes (s : String) : String :=
  ⟨s.data.dropWhile (fun c => c = '/')⟩

/-- The dispatch of `GatewayState.fetch`: an empty stripped path falls back
to `ensure` (the `|| 'ensure'` default); unknown paths get the 404 body. -/
def routeOf (pathname : String) : Route :=
  let p0 := stripLeadingSlashes pathname
  let p := if p0 = "" then "ensure" else p0
  if p = "ensure" then Route.ensure
  else if p = "restart" then Route.restart
  else if p = "state" then Route.state
  else Route.notFound

/-- Body and status of an ensure/restart response: `success` is the 200
`{ok:true, gatewayReady, processId}` body, `failure` the 503
`{ok:false, error}` body. -/
inductive ApiResult where
  | success (gatewayReady : Bool) (processId : Option String)
  | failure (error : String)
  deriving DecidableEq, Repr

/-- HTTP status the Durable Object attaches to an ensure/restart response. -/
def httpStatus : ApiResult → Nat
  | ApiResult.success _ _ => 200
  | ApiResult.failure _ => 503

/-- `handleEnsure`: run the ensure logic under the lock and report the cached
state on success, or catch the error into a 503 body. -/
def handleEnsure (env : Env) (w : World) : ApiResult × World :=
  match ensureGatewayRunningLogic env w with
  | (Except.ok (), w1) =>
    (ApiResult.success w1.gw.gatewayReady w1.gw.gatewayProcessId, w1)
  | (Except.error e, w1) => (ApiResult.failure e, w1)

/-- `handleRestart`: same shape as `handleEnsure` over the restart logic. -/
def handleRestart (env : Env) (w : World) : ApiResult × World :=
  match restartGatewayLogic env w with
  | (Except.ok (), w1) =>
    (ApiResult.success w1.gw.gatewayReady w1.gw.gatewayProcessId, w1)
  | (Except.error e, w1) => (ApiResult.failure e, w1)

/-- The body of the `state` response.  The two timestamps are reported as
`null` when still `0` (JS falsiness); the ISO-8601 rendering of a nonzero
timestamp is abstracted to the numeric value itself. -/
structure StateSnapshot where
  gatewayReady : Bool
  gatewayProcessId : Option String
  lastGatewayStartAttempt : Option Nat
  lastHealthCheck : Option Nat
  deriving DecidableEq, Repr

/-- `handleGetState`: lock-free snapshot of the cached state. -/
def handleGetState (w : World) : StateSnapshot :=
  { gatewayReady := w.gw.gatewayReady
    gatewayProcessId := w.gw.gatewayProcessId
    lastGatewayStartAttempt :=
      if w.gw.lastGatewayStartAttempt = 0 then none
      else some w.gw.lastGatewayStartAttempt
    lastHealthCheck :=
      if w.gw.lastHealthCheck = 0 then none
      else some w.gw.lastHealthCheck }

/-!
Transition-system model of `GatewayState.runWithLock` (part_000 lines
60-73).  JavaScript runs the Durable Object single-threaded, so execution
interleaves only at `await` points.  The exit of the `while (this.startLock)`
loop, the start of the operation and the install `this.startLock = promise`
form one atomic segment (no `await` separates them), modelled as `acquire`;
the `finally` clearing the slot — on fulfilment and on rejection alike — is
the other slot-touching segment, modelled as `finish` with the outcome
recorded.  A caller that finds the slot occupied re-checks it after each
await (loop, not a single wait), so it acquires only when the slot is
empty — exactly the `acquire` guard. -/

/-- Phase of one `runWithLock` caller. -/
inductive Phase where
  | waiting
  | active
  | done (failed : Bool)
  deriving DecidableEq, Repr

/-- Shared state of the lock: the `startLock` slot (holding the index of the
installed operation, `none` for the cleared slot) and the callers' phases. -/
structure LockSys where
  slot : Option Nat
  tasks : List Phase
  deriving DecidableEq, Repr

/-- The two slot-touching atomic segments of `runWithLock`. -/
inductive LockStep : LockSys → LockSys → Prop where
  | acquire (s : LockSys) (i : Nat)
      (hw : s.tasks[i]? = some Phase.waiting)
      (hs : s.slot = none) :
      LockStep s { slot := some i, tasks := s.tasks.set i Phase.active }
  | finish (s : LockSys) (i : Nat) (failed : Bool)
      (ha : s.tasks[i]? = some Phase.active) :
      LockStep s { slot := none, tasks := s.tasks.set i (Phase.done failed) }

/-- Initial lock state for `n` concurrent callers: slot clear, all waiting. -/
def lockInit (n : Nat) : LockSys :=
  { slot := none, tasks := List.replicate n Phase.waiting }

/-- Reachability of a lock state from the initial one. -/
def LockReachable (n : Nat) (s : LockSys) : Prop :=
  Relation.ReflTransGen LockStep (lockInit n) s

/-- The lock invariant: the slot points exactly at the active caller. -/
def LockInv (s : LockSys) : Prop :=
  (∀ i, s.tasks[i]? = some Phase.active → s.slot = some i) ∧
  (∀ i, s.slot = some i → s.tasks[i]? = some Phase.active)

/-! Concrete environments and worlds used by witnesses and counterexamples. -/

/-- A quiescent environment: every probe fails, nothing is found, every
spawn rejects.  Concrete scenarios override individual oracles. -/
def defaultEnv : Env :=
  { fetchResult := fun _ => none
    findProc := fun _ => none
    portWait := fun _ => some "waitForPort timed out"
    killResult := fun _ => none
    startResult := fun _ => Except.error "startProcess failed"
    listResult := fun _ => Except.ok []
    logsResult := fun _ => Except.ok { stdout := none, stderr := none }
    waitForProc := fun _ => none
    mountResult := fun _ => none }

/-- Startup-failure scenario: health probe finds nothing, no existing
process, mount succeeds, the spawn succeeds with id `gw-new`, the port never
opens, and the logs show `boot error: disk full` on stderr. -/
def envStartupFailure : Env :=
  { defaultEnv with
    startResult := fun _ =>
      Except.ok { id := "gw-new", status := ProcStatus.starting }
    portWait := fun _ => some "waitForPort timed out"
    logsResult := fun _ =>
      Except.ok { stdout := some "", stderr := some "boot error: disk full" } }

/-- World entering the startup-failure scenario with a previously tracked
process `gw-old` and `ready=false`. -/
def wStartupFailure : World :=
  World.fresh { gatewayProcessId := some "gw-old",
                lastGatewayStartAttempt := 0,
                gatewayReady := false, lastHealthCheck := 0 }

/-- Healthy-but-undiscovered scenario: the health probe answers 200 but
process discovery finds nothing on either attempt. -/
def envHealthyNoProc : Env :=
  { defaultEnv with
    fetchResult := fun _ => some 200
    findProc := fun _ => none }

/-- Environment whose single fetch yields the informational status 100: the
connection succeeded and 100 is not a 5xx server error. -/
def envStatus100 : Env :=
  { defaultEnv with fetchResult := fun _ => some 100 }

/-- Lock-clearing scenario: the probe for the first lock path reports the
file present (stdout echoes the path), so the removal command is issued. -/
def envLockPresent : Env :=
  { defaultEnv with
    startResult := fun _ =>
      Except.ok { id := "sh", status := ProcStatus.running }
    logsResult := fun n =>
      Except.ok { stdout := some (if n = 0
                    then "/tmp/clawdbot-gateway.lock\n"
                    else "/root/.clawdbot/gateway.lock\n"),
                  stderr := none } }

/-- Cold-start success scenario: nothing running, mount succeeds, spawn
succeeds with id `gw-1`, the port opens in time. -/
def envColdStartOk : Env :=
  { defaultEnv with
    startResult := fun _ =>
      Except.ok { id := "gw-1", status := ProcStatus.starting }
    portWait := fun _ => none }

/-- A world whose cached state already says ready, as after a successful
ensure. -/
def wReady : World :=
  World.fresh { gatewayProcessId := some "gw-1", lastGatewayStartAttempt := 5,
                gatewayReady := true, lastHealthCheck := 7 }

/-- The world right after restart's teardown head: the stop ran against the
tracked id and the state was cleared (`gatewayProcessId := null`,
`gatewayReady := false`). -/
def afterStopClear (env : Env) (w : World) : World :=
  let w1 := (stopGateway env w.gw.gatewayProcessId w).2
  { w1 with gw := { w1.gw with gatewayProcessId := none,
                               gatewayReady := false } }

/-- The world restart hands to ensure: after the stop, the state clearing,
the lock-file clearing, and the port-free wait, in that order. -/
def afterTeardown (env : Env) (w : World) : World :=
  waitForPortFree env ((clearLockFiles env (afterStopClear env w)).2)

/-! Helper lemmas. -/

lemma sleepW_gw (ms : Nat) (w : World) : (sleepW ms w).gw = w.gw := rfl

lemma isGatewayHealthy_gw (env : Env) (w : World) :
    (isGatewayHealthy env w).2.gw = w.gw := by
  unfold isGatewayHealthy callHealthFetch
  cases env.fetchResult w.ctr.fetch <;> rfl

lemma stopGraceful_gw (env : Env) (w : World) :
    (stopGraceful env w).gw = w.gw := by
  unfold stopGraceful callStart callProcWait callGetLogs
  dsimp only
  cases env.startResult w.ctr.start
  · rfl
  · dsimp only
    cases env.waitForProc w.ctr.wait <;> rfl

lemma stopForceById_gw (env : Env) (pid : String) (w : World) :
    (stopForceById env pid w).gw = w.gw := by
  unfold stopForceById callList callKill
  cases env.listResult w.ctr.list with
  | error e => rfl
  | ok ps =>
    dsimp only
    cases ps.find? (fun p => p.id == pid) with
    | none => rfl
    | some p =>
      dsimp only
      split <;> rfl

lemma stopGateway_gw (env : Env) (pid : Option String) (w : World) :
    (stopGateway env pid w).2.gw = w.gw := by
  unfold stopGateway callDiscover callKill
  cases pid with
  | none =>
    dsimp only
    cases h : env.findProc (stopGraceful env w).ctr.find <;>
      dsimp only <;> rw [stopGraceful_gw]
  | some p =>
    dsimp only
    cases h : env.findProc (stopForceById env p (stopGraceful env w)).ctr.find <;>
      dsimp only <;> rw [stopForceById_gw, stopGraceful_gw]

lemma stopGateway_ok (env : Env) (pid : Option String) (w : World) :
    (stopGateway env pid w).1 = Except.ok () := by
  unfold stopGateway callDiscover
  cases pid with
  | none =>
    dsimp only
    cases h : env.findProc (stopGraceful env w).ctr.find <;> rfl
  | some p =>
    dsimp only
    cases h : env.findProc (stopForceById env p (stopGraceful env w)).ctr.find <;>
      rfl

lemma clearLockOne_gw (env : Env) (p : String) (w : World) :
    (clearLockOne env p w).2.gw = w.gw := by
  unfold clearLockOne callStart callProcWait callGetLogs
  dsimp only
  cases env.startResult w.ctr.start with
  | error e => rfl
  | ok pr =>
    dsimp only
    cases env.waitForProc w.ctr.wait with
    | some e => rfl
    | none =>
      dsimp only
      cases env.logsResult w.ctr.logs with
      | error e => rfl
      | ok lg =>
        dsimp only
        split
        · cases env.startResult (w.ctr.start + 1) with
          | error e => rfl
          | ok rm =>
            dsimp only
            cases env.waitForProc (w.ctr.wait + 1) <;> rfl
        · rfl

lemma clearLockFiles_gw (env : Env) (w : World) :
    (clearLockFiles env w).2.gw = w.gw := by
  unfold clearLockFiles
  split
  case _ e w1 h =>
    have := congrArg (fun r => r.2.gw) h
    simpa [clearLockOne_gw] using this.symm
  case _ w1 h =>
    have h1 : w1.gw = w.gw := by
      have := congrArg (fun r => r.2.gw) h
      simpa [clearLockOne_gw] using this.symm
    split
    case _ e w2 h2 =>
      have := congrArg (fun r => r.2.gw) h2
      simp only [clearLockOne_gw] at this
      simpa [h1] using this.symm
    case _ w2 h2 =>
      have := congrArg (fun r => r.2.gw) h2
      simp only [clearLockOne_gw] at this
      simpa [h1] using this.symm

lemma clearLockFiles_ok (env : Env) (w : World) :
    (clearLockFiles env w).1 = Except.ok () := by
  unfold clearLockFiles
  split
  · rfl
  · split <;> rfl

lemma waitForPortFreeLoop_gw (env : Env) (deadline : Nat) :
    ∀ fuel w, (waitForPortFreeLoop env deadline fuel w).gw = w.gw := by
  intro fuel
  induction fuel with
  | zero => intro w; rfl
  | succ n ih =>
    intro w
    unfold waitForPortFreeLoop
    split
    · split
      case _ w1 h =>
        rw [ih, sleepW_gw]
        have := congrArg (fun r => r.2.gw) h
        simpa [isGatewayHealthy_gw] using this.symm
      case _ w1 h =>
        have := congrArg (fun r => r.2.gw) h
        simpa [isGatewayHealthy_gw] using this.symm
    · rfl

lemma waitForPortFree_gw (env : Env) (w : World) :
    (waitForPortFree env w).gw = w.gw := by
  unfold waitForPortFree
  rw [waitForPortFreeLoop_gw]

lemma callDiscover_gw (env : Env) (w : World) :
    (callDiscover env w).2.gw = w.gw := rfl

lemma callKill_gw (env : Env) (w : World) :
    (callKill env w).2.gw = w.gw := rfl

lemma ensureHealthyPath_ok (env : Env) (w : World) :
    (ensureHealthyPath env w).1 = Except.ok () := by
  unfold ensureHealthyPath callDiscover sleepW
  dsimp only
  cases env.findProc w.ctr.find with
  | some p => rfl
  | none =>
    dsimp only
    cases env.findProc (w.ctr.find + 1) <;> rfl

lemma ensureHealthyPath_ready (env : Env) (w : World) :
    (ensureHealthyPath env w).2.gw.gatewayReady = true := by
  unfold ensureHealthyPath callDiscover sleepW
  dsimp only
  cases env.findProc w.ctr.find with
  | some p => rfl
  | none =>
    dsimp only
    cases env.findProc (w.ctr.find + 1) <;> rfl

lemma ensureHealthyPath_pid (env : Env) (w : World) :
    (ensureHealthyPath env w).2.gw.gatewayProcessId = none →
    w.gw.gatewayProcessId = none := by
  unfold ensureHealthyPath callDiscover sleepW
  dsimp only
  cases env.findProc w.ctr.find with
  | some p => intro h; exact absurd h (by simp)
  | none =>
    dsimp only
    cases env.findProc (w.ctr.find + 1) with
    | some p => intro h; exact absurd h (by simp)
    | none => exact fun h => h

lemma ensureFreshStart_spec (env : Env) (w : World) :
    ((ensureFreshStart env w).1 = Except.ok () →
      (ensureFreshStart env w).2.gw.gatewayReady = true ∧
      ∃ s, (ensureFreshStart env w).2.gw.gatewayProcessId = some s) ∧
    (∀ e, (ensureFreshStart env w).1 = Except.error e →
      (ensureFreshStart env w).2.gw.gatewayReady = w.gw.gatewayReady) := by
  unfold ensureFreshStart callMount callStart callPortWait callGetLogs
  dsimp only
  cases env.mountResult w.ctr.mount with
  | some e => exact ⟨fun h => by simp at h, fun e' h => rfl⟩
  | none =>
    dsimp only
    cases env.startResult w.ctr.start with
    | error e => exact ⟨fun h => by simp at h, fun e' h => rfl⟩
    | ok p =>
      dsimp only
      cases env.portWait w.ctr.port with
      | none => exact ⟨fun h => ⟨rfl, ⟨p.id, rfl⟩⟩, fun e' h => by simp at h⟩
      | some e =>
        dsimp only
        cases env.logsResult w.ctr.logs with
        | error le => exact ⟨fun h => by simp at h, fun e' h => rfl⟩
        | ok lg => exact ⟨fun h => by simp at h, fun e' h => rfl⟩

lemma ensureRecheck_spec (env : Env) (w : World) :
    ((ensureRecheck env w).1 = Except.ok () →
      (ensureRecheck env w).2.gw.gatewayReady = true ∧
      ∃ s, (ensureRecheck env w).2.gw.gatewayProcessId = some s) ∧
    (∀ e, (ensureRecheck env w).1 = Except.error e →
      (ensureRecheck env w).2.gw.gatewayReady = w.gw.gatewayReady) := by
  unfold ensureRecheck
  rcases hh : isGatewayHealthy env w with ⟨b, w1⟩
  have hw1 : w1.gw = w.gw := by
    rw [← isGatewayHealthy_gw env w, hh]
  cases b with
  | false =>
    dsimp only
    have h := ensureFreshStart_spec env w1
    rw [show w.gw.gatewayReady = w1.gw.gatewayReady from by rw [hw1]]
    exact h
  | true =>
    dsimp only
    rcases hs : stopGateway env w1.gw.gatewayProcessId w1 with ⟨r2, w2⟩
    have h2 : r2 = Except.ok () := by
      have := stopGateway_ok env w1.gw.gatewayProcessId w1
      rw [hs] at this
      exact this
    subst h2
    dsimp only
    have hw2 : w2.gw = w1.gw := by
      rw [← stopGateway_gw env w1.gw.gatewayProcessId w1, hs]
    have h := ensureFreshStart_spec env
      (waitForPortFree env { w2 with gw := { w2.gw with gatewayProcessId := none } })
    rw [waitForPortFree_gw] at h
    dsimp only at h
    rw [show w.gw.gatewayReady = w2.gw.gatewayReady from by rw [hw2, hw1]]
    exact h

lemma ensure_spec (env : Env) (w : World) :
    ((ensureGatewayRunningLogic env w).1 = Except.ok () →
      (ensureGatewayRunningLogic env w).2.gw.gatewayReady = true ∧
      ((ensureGatewayRunningLogic env w).2.gw.gatewayProcessId = none →
        w.gw.gatewayProcessId = none)) ∧
    (∀ e, (ensureGatewayRunningLogic env w).1 = Except.error e →
      (ensureGatewayRunningLogic env w).2.gw.gatewayReady = false ∧
      w.gw.gatewayReady = false) := by
  unfold ensureGatewayRunningLogic
  cases hready : w.gw.gatewayReady with
  | true =>
    dsimp only
    exact ⟨fun _h => ⟨hready, fun hp => hp⟩, fun e h => by simp at h⟩
  | false =>
    rw [if_neg (show ¬ (false = true) by decide)]
    rcases hh : isGatewayHealthy env w with ⟨b, w1⟩
    have hw1 : w1.gw = w.gw := by
      rw [← isGatewayHealthy_gw env w, hh]
    cases b with
    | true =>
      dsimp only
      refine ⟨fun _h => ⟨ensureHealthyPath_ready env w1, fun hp => ?_⟩,
              fun e h => ?_⟩
      · rw [← hw1]
        exact ensureHealthyPath_pid env w1 hp
      · rw [ensureHealthyPath_ok env w1] at h
        simp at h
    | false =>
      dsimp only
      rcases hd : callDiscover env w1 with ⟨op, w2⟩
      have hw2 : w2.gw = w1.gw := by
        rw [← callDiscover_gw env w1, hd]
      cases op with
      | some p =>
        dsimp only
        rcases hp : callPortWait env w2 with ⟨ow, w3⟩
        cases ow with
        | none =>
          dsimp only
          exact ⟨fun _h => ⟨rfl, fun hpid => absurd hpid (by simp)⟩,
                 fun e h => by simp at h⟩
        | some e0 =>
          dsimp only
          have h := ensureRecheck_spec env (callKill env w3).2
          have hw3 : w3.gw = w2.gw := by
            rw [← (show (callPortWait env w2).2.gw = w2.gw from rfl), hp]
          rw [callKill_gw, hw3, hw2, hw1] at h
          refine ⟨fun hok => ?_, fun e he => ?_⟩
          · rcases h.1 hok with ⟨hr, ⟨s, hs⟩⟩
            exact ⟨hr, fun hpid => absurd (hs ▸ hpid) (by simp)⟩
          · exact ⟨(h.2 e he).trans hready, rfl⟩
      | none =>
        dsimp only
        have h := ensureRecheck_spec env w2
        rw [hw2, hw1] at h
        refine ⟨fun hok => ?_, fun e he => ?_⟩
        · rcases h.1 hok with ⟨hr, ⟨s, hs⟩⟩
          exact ⟨hr, fun hpid => absurd (hs ▸ hpid) (by simp)⟩
        · exact ⟨(h.2 e he).trans hready, rfl⟩

lemma ensure_fast (env : Env) (w : World) (h : w.gw.gatewayReady = true) :
    ensureGatewayRunningLogic env w = (Except.ok (), w) := by
  unfold ensureGatewayRunningLogic
  rw [h]
  rfl

lemma restart_unfold (env : Env) (w : World) :
    restartGatewayLogic env w =
      ensureGatewayRunningLogic env (afterTeardown env w) := by
  unfold restartGatewayLogic afterTeardown afterStopClear
  rcases hs : stopGateway env w.gw.gatewayProcessId w with ⟨r1, w1⟩
  have h1 : r1 = Except.ok () := by
    have := stopGateway_ok env w.gw.gatewayProcessId w
    rw [hs] at this
    exact this
  subst h1
  dsimp only
  rcases hc : clearLockFiles env
      { w1 with gw := { w1.gw with gatewayProcessId := none,
                                   gatewayReady := false } } with ⟨r2, w2⟩
  have h2 : r2 = Except.ok () := by
    have := clearLockFiles_ok env
      { w1 with gw := { w1.gw with gatewayProcessId := none,
                                   gatewayReady := false } }
    rw [hc] at this
    exact this
  subst h2
  dsimp only

lemma clearLockOne_trace (env : Env) (p : String) (w : World) :
    ∀ cmd, Event.startProc cmd ∈ (clearLockOne env p w).2.trace →
      Event.startProc cmd ∈ w.trace ∨
      cmd = lockTestCommand p ∨ cmd = lockRemoveCommand p := by
  unfold clearLockOne callStart callProcWait callGetLogs
  dsimp only
  cases env.startResult w.ctr.start with
  | error e => intro cmd hm; simp at hm; tauto
  | ok pr =>
    dsimp only
    cases env.waitForProc w.ctr.wait with
    | some e => intro cmd hm; simp at hm; tauto
    | none =>
      dsimp only
      cases env.logsResult w.ctr.logs with
      | error e => intro cmd hm; simp at hm; tauto
      | ok lg =>
        dsimp only
        split
        · cases env.startResult (w.ctr.start + 1) with
          | error e => intro cmd hm; simp at hm; tauto
          | ok rm =>
            dsimp only
            cases env.waitForProc (w.ctr.wait + 1) <;>
              (intro cmd hm; simp at hm; tauto)
        · intro cmd hm; simp at hm; tauto

lemma clearLockFiles_trace (env : Env) (w : World) :
    ∀ cmd, Event.startProc cmd ∈ (clearLockFiles env w).2.trace →
      Event.startProc cmd ∈ w.trace ∨
      ∃ p, p ∈ GATEWAY_LOCK_PATHS ∧
        (cmd = lockTestCommand p ∨ cmd = lockRemoveCommand p) := by
  unfold clearLockFiles
  rcases h1 : clearLockOne env (GATEWAY_LOCK_PATHS.get! 0) w with ⟨r1, w1⟩
  have t1 := clearLockOne_trace env (GATEWAY_LOCK_PATHS.get! 0) w
  rw [h1] at t1
  have hm0 : GATEWAY_LOCK_PATHS.get! 0 ∈ GATEWAY_LOCK_PATHS := by decide
  have hm1 : GATEWAY_LOCK_PATHS.get! 1 ∈ GATEWAY_LOCK_PATHS := by decide
  cases r1 with
  | error e =>
    dsimp only
    intro cmd hm
    rcases t1 cmd hm with h | h | h
    · exact Or.inl h
    · exact Or.inr ⟨_, hm0, Or.inl h⟩
    · exact Or.inr ⟨_, hm0, Or.inr h⟩
  | ok u =>
    cases u
    dsimp only
    rcases h2 : clearLockOne env (GATEWAY_LOCK_PATHS.get! 1) w1 with ⟨r2, w2⟩
    have t2 := clearLockOne_trace env (GATEWAY_LOCK_PATHS.get! 1) w1
    rw [h2] at t2
    have step : ∀ cmd, Event.startProc cmd ∈ w2.trace →
        Event.startProc cmd ∈ w.trace ∨
        ∃ p, p ∈ GATEWAY_LOCK_PATHS ∧
          (cmd = lockTestCommand p ∨ cmd = lockRemoveCommand p) := by
      intro cmd hm
      rcases t2 cmd hm with h | h | h
      · rcases t1 cmd h with h' | h' | h'
        · exact Or.inl h'
        · exact Or.inr ⟨_, hm0, Or.inl h'⟩
        · exact Or.inr ⟨_, hm0, Or.inr h'⟩
      · exact Or.inr ⟨_, hm1, Or.inl h⟩
      · exact Or.inr ⟨_, hm1, Or.inr h⟩
    cases r2 with
    | error e => exact step
    | ok v => cases v; exact step

lemma getElem?_replicate_phase {n i : Nat} {a b : Phase}
    (h : (List.replicate n a)[i]? = some b) : b = a := by
  induction n generalizing i with
  | zero => simp [List.replicate] at h
  | succ m ih =>
    rw [List.replicate] at h
    cases i with
    | zero => simp at h; exact h.symm
    | succ j => rw [List.getElem?_cons_succ] at h; exact ih h

lemma getElem?_set_self_phase {l : List Phase} {i : Nat} (a : Phase)
    (h : i < l.length) : (l.set i a)[i]? = some a := by
  induction l generalizing i with
  | nil => simp at h
  | cons x xs ih =>
    cases i with
    | zero => simp
    | succ j =>
      rw [List.set_cons_succ, List.getElem?_cons_succ]
      exact ih (by simpa using h)

lemma getElem?_set_ne_phase {l : List Phase} {i j : Nat} (a : Phase)
    (h : i ≠ j) : (l.set i a)[j]? = l[j]? := by
  induction l generalizing i j with
  | nil => simp
  | cons x xs ih =>
    cases i with
    | zero =>
      cases j with
      | zero => exact absurd rfl h
      | succ j' => simp
    | succ i' =>
      cases j with
      | zero => simp
      | succ j' =>
        rw [List.set_cons_succ, List.getElem?_cons_succ,
            List.getElem?_cons_succ]
        exact ih (fun hc => h (by rw [hc]))

lemma getElem?_lt_phase {l : List Phase} {i : Nat} {a : Phase}
    (h : l[i]? = some a) : i < l.length := by
  induction l generalizing i with
  | nil => simp at h
  | cons x xs ih =>
    cases i with
    | zero => simp
    | succ j =>
      rw [List.getElem?_cons_succ] at h
      simpa using ih h

lemma lockInv_init (n : Nat) : LockInv (lockInit n) := by
  constructor
  · intro i h
    have := getElem?_replicate_phase h
    simp at this
  · intro i h
    simp [lockInit] at h

lemma lockInv_step {s t : LockSys} (hs : LockInv s) (hstep : LockStep s t) :
    LockInv t := by
  cases hstep with
  | acquire i hw hslot =>
    constructor
    · intro j hj
      by_cases hij : i = j
      · subst hij; rfl
      · rw [show ({ slot := some i, tasks := s.tasks.set i Phase.active } :
              LockSys).tasks = s.tasks.set i Phase.active from rfl,
            getElem?_set_ne_phase _ hij] at hj
        have := hs.1 j hj
        rw [hslot] at this
        simp at this
    · intro j hj
      have hij : i = j := by
        have h' : some i = some j := hj
        injection h'
      subst hij
      exact getElem?_set_self_phase _ (getElem?_lt_phase hw)
  | finish i failed ha =>
    constructor
    · intro j hj
      by_cases hij : i = j
      · subst hij
        rw [show ({ slot := none, tasks := s.tasks.set i (Phase.done failed) } :
              LockSys).tasks = s.tasks.set i (Phase.done failed) from rfl,
            getElem?_set_self_phase _ (getElem?_lt_phase ha)] at hj
        simp at hj
      · rw [show ({ slot := none, tasks := s.tasks.set i (Phase.done failed) } :
              LockSys).tasks = s.tasks.set i (Phase.done failed) from rfl,
            getElem?_set_ne_phase _ hij] at hj
        have h1 := hs.1 j hj
        have h2 := hs.1 i ha
        rw [h1] at h2
        have hji : j = i := by injection h2
        exact absurd hji (fun hc => hij hc.symm)
    · intro j hj
      simp at hj

lemma lockInv_reachable (n : Nat) (s : LockSys) (h : LockReachable n s) :
    LockInv s := by
  unfold LockReachable at h
  induction h with
  | refl => exact lockInv_init n
  | tail hab hbc ih => exact lockInv_step ih hbc

/-! Claim theorems. -/

/-- C1: the spec says a startup-timeout failure of ensure (and of restart,
which runs ensure) raises an error embedding the captured stderr when the
logs are retrievable.  The code builds exactly that message, but throws it
inside the same `try` that fetched the logs, so its own `catch (logErr)` arm
intercepts it and rethrows the original `waitForPort` error: on the fresh
start path whose port wait rejects with message `em`, the ensure call fails
with `em` — never with the stderr-embedding message — whatever the logs
hold. -/
theorem C1_startup_failure_rethrows_original_error
    (env : Env) (w : World) (p : ProcInfo) (em : String)
    (hready : w.gw.gatewayReady = false)
    (hf1 : env.fetchResult w.ctr.fetch = none)
    (hd : env.findProc w.ctr.find = none)
    (hf2 : env.fetchResult (w.ctr.fetch + 1) = none)
    (hm : env.mountResult w.ctr.mount = none)
    (hs : env.startResult w.ctr.start = Except.ok p)
    (hp : env.portWait w.ctr.port = some em) :
    (ensureGatewayRunningLogic env w).1 = Except.error em ∧
    (ensureGatewayRunningLogic env w).2.gw.gatewayProcessId = some p.id ∧
    (ensureGatewayRunningLogic env w).2.gw.gatewayReady = false := by
  have hcond : ¬ (w.gw.gatewayReady = true) := by
    rw [hready]; decide
  unfold ensureGatewayRunningLogic ensureRecheck ensureFreshStart
    isGatewayHealthy callHealthFetch callDiscover callMount callStart
    callPortWait callGetLogs
  rw [if_neg hcond]
  dsimp only
  rw [hf1]
  dsimp only
  rw [hd]
  dsimp only
  rw [hf2]
  dsimp only
  rw [hm]
  dsimp only
  rw [hs]
  dsimp only
  rw [hp]
  dsimp only
  cases env.logsResult w.ctr.logs <;> exact ⟨rfl, rfl, hready⟩

/-- C1 witness: in the startup-failure scenario whose stderr shows
`boot error: disk full`, the call fails with the original port-wait error,
which is not the stderr-embedding message the spec demands. -/
theorem C1_startup_failure_rethrows_original_error_witness :
    (ensureGatewayRunningLogic envStartupFailure wStartupFailure).1 =
      Except.error "waitForPort timed out" ∧
    (ensureGatewayRunningLogic envStartupFailure wStartupFailure).2.gw.gatewayProcessId =
      some "gw-new" ∧
    (ensureGatewayRunningLogic envStartupFailure wStartupFailure).2.gw.gatewayReady =
      false ∧
    "waitForPort timed out" ≠
      startFailureMessage (some "boot error: disk full") := by
  have h := C1_startup_failure_rethrows_original_error envStartupFailure
    wStartupFailure ⟨"gw-new", ProcStatus.starting⟩ "waitForPort timed out"
    rfl rfl rfl rfl rfl rfl rfl
  exact ⟨h.1, h.2.1, h.2.2, by decide⟩

/-- C2 counterexample: with a previously tracked process `gw-old`, a failing
fresh start leaves the cached `gatewayProcessId` pointing at the process
`gw-new` spawned during the failed attempt — not at the last known-good
value — and a subsequent getState reports that same partial progress. -/
theorem C2_failed_ensure_keeps_spawned_pid_counterexample :
    (handleEnsure envStartupFailure wStartupFailure).1 =
      ApiResult.failure "waitForPort timed out" ∧
    wStartupFailure.gw.gatewayProcessId = some "gw-old" ∧
    (handleEnsure envStartupFailure wStartupFailure).2.gw.gatewayProcessId =
      some "gw-new" ∧
    (handleGetState (handleEnsure envStartupFailure wStartupFailure).2).gatewayProcessId =
      some "gw-new" := by decide

/-- C2 (amended): after a failed ensure or restart the cached and reported
`gatewayReady` is false — its pre-attempt, last-known-good value, since a
failing attempt neither starts from nor produces ready=true — while
`gatewayProcessId` may reflect the failed attempt's partial progress (the id
of the process spawned during the failed start). -/
theorem C2_failed_ensure_state_amended (env : Env) (w : World) (e : String) :
    ((ensureGatewayRunningLogic env w).1 = Except.error e →
      (ensureGatewayRunningLogic env w).2.gw.gatewayReady = false ∧
      w.gw.gatewayReady = false) ∧
    ((restartGatewayLogic env w).1 = Except.error e →
      (restartGatewayLogic env w).2.gw.gatewayReady = false) ∧
    ((handleEnsure env w).1 = ApiResult.failure e →
      (handleGetState (handleEnsure env w).2).gatewayReady = false) := by
  refine ⟨fun h => (ensure_spec env w).2 e h, fun h => ?_, fun h => ?_⟩
  · rw [restart_unfold] at h ⊢
    exact ((ensure_spec env (afterTeardown env w)).2 e h).1
  · unfold handleEnsure at h ⊢
    rcases hr : ensureGatewayRunningLogic env w with ⟨r, w1⟩
    rw [hr] at h
    cases r with
    | ok u =>
      cases u
      exact ApiResult.noConfusion
        (show ApiResult.success w1.gw.gatewayReady w1.gw.gatewayProcessId =
          ApiResult.failure e from h)
    | error e' =>
      have hsp := (ensure_spec env w).2 e'
      rw [hr] at hsp
      dsimp only at hsp
      have hrd := (hsp rfl).1
      dsimp only
      simpa [handleGetState] using hrd

/-- C2 witness: the amended statement at the startup-failure scenario. -/
theorem C2_failed_ensure_state_amended_witness :
    (ensureGatewayRunningLogic envStartupFailure wStartupFailure).2.gw.gatewayReady =
      false ∧
    wStartupFailure.gw.gatewayReady = false :=
  (C2_failed_ensure_state_amended envStartupFailure wStartupFailure
    "waitForPort timed out").1 (by decide)

/-- C3 counterexample: when the health probe succeeds but process discovery
finds nothing on either attempt (and nothing was tracked before), ensure
completes successfully with `ready=true` yet a null `processId`, and the
getState snapshot shows exactly that — contradicting the claim that every
such success carries a non-null processId. -/
theorem C3_ready_without_pid_counterexample :
    (ensureGatewayRunningLogic envHealthyNoProc
        (World.fresh initialGatewayState)).1 = Except.ok () ∧
    (ensureGatewayRunningLogic envHealthyNoProc
        (World.fresh initialGatewayState)).2.gw.gatewayReady = true ∧
    (ensureGatewayRunningLogic envHealthyNoProc
        (World.fresh initialGatewayState)).2.gw.gatewayProcessId = none ∧
    (handleGetState (ensureGatewayRunningLogic envHealthyNoProc
        (World.fresh initialGatewayState)).2).gatewayProcessId = none := by
  decide

/-- C3 (amended): a successful ensure always leaves `ready=true`, and never
clears `gatewayProcessId`: the resulting processId can be null only when it
was already null before the call (as when the health-check path's discovery
finds no process on both attempts); every other success path records a
concrete id. -/
theorem C3_ready_pid_amended (env : Env) (w : World)
    (h : (ensureGatewayRunningLogic env w).1 = Except.ok ()) :
    (ensureGatewayRunningLogic env w).2.gw.gatewayReady = true ∧
    ((ensureGatewayRunningLogic env w).2.gw.gatewayProcessId = none →
      w.gw.gatewayProcessId = none) :=
  (ensure_spec env w).1 h

/-- C3 witness: the amended statement at the cold-start success scenario. -/
theorem C3_ready_pid_amended_witness :
    (ensureGatewayRunningLogic envColdStartOk
        (World.fresh initialGatewayState)).2.gw.gatewayReady = true ∧
    ((ensureGatewayRunningLogic envColdStartOk
        (World.fresh initialGatewayState)).2.gw.gatewayProcessId = none →
      (World.fresh initialGatewayState).gw.gatewayProcessId = none) :=
  C3_ready_pid_amended envColdStartOk (World.fresh initialGatewayState)
    (by decide)

/-- C4 counterexample: a fetch that succeeds with the informational status
100 is not a 5xx server error, so the claim's phrasing calls it healthy —
but the probe computes `200 <= status < 500` and reports unhealthy. -/
theorem C4_health_iff_counterexample :
    (isGatewayHealthy envStatus100 (World.fresh initialGatewayState)).1 =
      false ∧
    envStatus100.fetchResult 0 = some 100 ∧
    specHealthyPolicyB (some 100) = true := by decide

/-- C4 (amended): the health probe reports healthy exactly when the fetch
succeeds with a status in [200, 500) — in particular never on a 5xx — and
reports unhealthy, never raising, on every rejection (thrown error, timeout,
connection refusal: fetch outcome `none`). -/
theorem C4_health_iff_amended (env : Env) (w : World) :
    ((isGatewayHealthy env w).1 = true ↔
      ∃ s, env.fetchResult w.ctr.fetch = some s ∧ 200 ≤ s ∧ s < 500) ∧
    (env.fetchResult w.ctr.fetch = none →
      (isGatewayHealthy env w).1 = false) := by
  unfold isGatewayHealthy callHealthFetch
  dsimp only
  cases h : env.fetchResult w.ctr.fetch with
  | none => simp
  | some s =>
    dsimp only
    constructor
    · constructor
      · intro hd
        exact ⟨s, rfl, by simpa using hd⟩
      · rintro ⟨s', hs', h1, h2⟩
        have : s = s' := by injection hs'
        subst this
        simp [h1, h2]
    · intro hx
      cases hx

/-- C4 witness: the amended characterisation at a 200 response. -/
theorem C4_health_iff_amended_witness :
    (isGatewayHealthy envHealthyNoProc (World.fresh initialGatewayState)).1 =
      true :=
  (C4_health_iff_amended envHealthyNoProc (World.fresh initialGatewayState)).1.mpr
    ⟨200, rfl, by decide, by decide⟩

/-- C5: `clearLockFiles` never rejects, and every shell command it issues is
the probe or the removal of one of the two exactly enumerated lock paths —
none of which contains a wildcard character — so it never performs a
wildcard sweep of a shared directory. -/
theorem C5_clear_lock_files_enumerated (env : Env) (w : World) :
    (clearLockFiles env w).1 = Except.ok () ∧
    ∀ cmd, Event.startProc cmd ∈ (clearLockFiles env w).2.trace →
      Event.startProc cmd ∈ w.trace ∨
      ∃ p, p ∈ GATEWAY_LOCK_PATHS ∧
        (cmd = lockTestCommand p ∨ cmd = lockRemoveCommand p) ∧
        '*' ∉ cmd.data := by
  refine ⟨clearLockFiles_ok env w, ?_⟩
  intro cmd hm
  rcases clearLockFiles_trace env w cmd hm with h | ⟨p, hp, hc⟩
  · exact Or.inl h
  · refine Or.inr ⟨p, hp, hc, ?_⟩
    have hp' : p = "/tmp/clawdbot-gateway.lock" ∨
        p = "/root/.clawdbot/gateway.lock" := by
      simpa [GATEWAY_LOCK_PATHS, CLAWDBOT_DATA_DIR] using hp
    rcases hp' with rfl | rfl <;> rcases hc with rfl | rfl <;> decide

/-- C5 witness: in the scenario where the first lock file exists, the
removal command for `/tmp/clawdbot-gateway.lock` is issued and satisfies the
enumeration property. -/
theorem C5_clear_lock_files_enumerated_witness :
    Event.startProc (lockRemoveCommand "/tmp/clawdbot-gateway.lock") ∈
      (clearLockFiles envLockPresent (World.fresh initialGatewayState)).2.trace ∧
    (Event.startProc (lockRemoveCommand "/tmp/clawdbot-gateway.lock") ∈
        (World.fresh initialGatewayState).trace ∨
      ∃ p, p ∈ GATEWAY_LOCK_PATHS ∧
        (lockRemoveCommand "/tmp/clawdbot-gateway.lock" = lockTestCommand p ∨
         lockRemoveCommand "/tmp/clawdbot-gateway.lock" = lockRemoveCommand p) ∧
        '*' ∉ (lockRemoveCommand "/tmp/clawdbot-gateway.lock").data) :=
  ⟨by decide,
   (C5_clear_lock_files_enumerated envLockPresent
      (World.fresh initialGatewayState)).2 _ (by decide)⟩

/-- C6: with cached `ready=true` ensure returns at once with the world
wholly unchanged — no process, network, or storage capability call (the
trace, counters and clock are untouched) and no state mutation — and since
every successful ensure leaves `ready=true`, a second ensure run after a
successful one takes this same fast path and is a no-op. -/
theorem C6_fast_path_idempotent (env env2 : Env) (w : World) :
    (w.gw.gatewayReady = true →
      ensureGatewayRunningLogic env w = (Except.ok (), w)) ∧
    (∀ w', ensureGatewayRunningLogic env w = (Except.ok (), w') →
      ensureGatewayRunningLogic env2 w' = (Except.ok (), w')) := by
  constructor
  · exact ensure_fast env w
  · intro w' h
    have hready : w'.gw.gatewayReady = true := by
      have hspec := (ensure_spec env w).1
      rw [h] at hspec
      exact (hspec rfl).1
    exact ensure_fast env2 w' hready

/-- C6 witness: the fast path at a ready world, and the no-op second ensure
after the cold-start success. -/
theorem C6_fast_path_idempotent_witness :
    ensureGatewayRunningLogic defaultEnv wReady = (Except.ok (), wReady) ∧
    ensureGatewayRunningLogic defaultEnv
        (ensureGatewayRunningLogic envColdStartOk
          (World.fresh initialGatewayState)).2 =
      (Except.ok (),
        (ensureGatewayRunningLogic envColdStartOk
          (World.fresh initialGatewayState)).2) :=
  ⟨(C6_fast_path_idempotent defaultEnv defaultEnv wReady).1 rfl,
   (C6_fast_path_idempotent envColdStartOk defaultEnv
      (World.fresh initialGatewayState)).2 _ (by decide)⟩

/-- C7: restart performs the stop first on every invocation — no health
probe guards it, and the stop completes (best-effort) — then clears
`gatewayProcessId` and `gatewayReady`, then clears the lock files, then
waits for the port to free, and only then runs ensure: restart is exactly
ensure run on the after-teardown world. -/
theorem C7_restart_order (env : Env) (w : World) :
    restartGatewayLogic env w =
      ensureGatewayRunningLogic env (afterTeardown env w) ∧
    (stopGateway env w.gw.gatewayProcessId w).1 = Except.ok () ∧
    (afterStopClear env w).gw.gatewayProcessId = none ∧
    (afterStopClear env w).gw.gatewayReady = false :=
  ⟨restart_unfold env w, stopGateway_ok env w.gw.gatewayProcessId w,
   rfl, rfl⟩

/-- C8: the stop is best-effort and never rejects, for every behavior of the
capabilities — a failing graceful stop, force kill, or sweep kill is
absorbed — lock clearing likewise never rejects, and inside restart even a
raising kill still lets the lock clearing, the port-free wait and the ensure
run execute: restart's outcome is ensure's outcome on the torn-down world. -/
theorem C8_stop_never_throws (env : Env) (pid : Option String) (w : World) :
    (stopGateway env pid w).1 = Except.ok () ∧
    (clearLockFiles env w).1 = Except.ok () ∧
    (restartGatewayLogic env w).1 =
      (ensureGatewayRunningLogic env (afterTeardown env w)).1 :=
  ⟨stopGateway_ok env pid w, clearLockFiles_ok env w,
   by rw [restart_unfold]⟩

/-- C9: in the transition-system model of `runWithLock` (atomic
check-and-install, atomic finally-clear), every reachable configuration has
at most one active operation; a completed operation — succeeded or failed —
never holds the slot; when nothing is active the slot is empty; and a
waiting caller can then acquire, so a throwing operation never deadlocks
subsequent callers. -/
theorem C9_lock_mutual_exclusion (n : Nat) (s : LockSys)
    (h : LockReachable n s) :
    (∀ i j : Nat, s.tasks[i]? = some Phase.active →
      s.tasks[j]? = some Phase.active → i = j) ∧
    (∀ (i : Nat) (failed : Bool), s.tasks[i]? = some (Phase.done failed) →
      s.slot ≠ some i) ∧
    ((∀ i : Nat, s.tasks[i]? ≠ some Phase.active) → s.slot = none) ∧
    (∀ i : Nat, s.tasks[i]? = some Phase.waiting →
      (∀ j : Nat, s.tasks[j]? ≠ some Phase.active) →
      LockStep s { slot := some i, tasks := s.tasks.set i Phase.active }) := by
  have hinv := lockInv_reachable n s h
  have hfree : (∀ i : Nat, s.tasks[i]? ≠ some Phase.active) → s.slot = none := by
    intro hno
    cases hslot : s.slot with
    | none => rfl
    | some i => exact absurd (hinv.2 i hslot) (hno i)
  refine ⟨?_, ?_, hfree, ?_⟩
  · intro i j hi hj
    have h1 := hinv.1 i hi
    have h2 := hinv.1 j hj
    rw [h1] at h2
    injection h2
  · intro i failed hd hslot
    have := hinv.2 i hslot
    rw [hd] at this
    simp at this
  · intro i hw hno
    exact LockStep.acquire s i hw (hfree hno)

/-- C9 witness: after one acquire and one failing finish of caller 0, the
slot is clear — the finished caller does not hold it. -/
theorem C9_lock_mutual_exclusion_witness :
    ({ slot := none,
       tasks := ((lockInit 2).tasks.set 0 Phase.active).set 0
         (Phase.done true) } : LockSys).slot ≠ some 0 := by
  have h1 : LockStep (lockInit 2)
      { slot := some 0, tasks := (lockInit 2).tasks.set 0 Phase.active } :=
    LockStep.acquire (lockInit 2) 0 (by decide) rfl
  have h2 : LockStep
      { slot := some 0, tasks := (lockInit 2).tasks.set 0 Phase.active }
      { slot := none,
        tasks := ((lockInit 2).tasks.set 0 Phase.active).set 0
          (Phase.done true) } :=
    LockStep.finish _ 0 true (by decide)
  have hreach : LockReachable 2
      { slot := none,
        tasks := ((lockInit 2).tasks.set 0 Phase.active).set 0
          (Phase.done true) } :=
    Relation.ReflTransGen.tail
      (Relation.ReflTransGen.tail Relation.ReflTransGen.refl h1) h2
  exact (C9_lock_mutual_exclusion 2 _ hreach).2.1 0 true (by decide)

/-- C10: a request path that is empty or consists only of slashes is
dispatched to ensure (the stripped path falls back to `ensure`), and the 404
not-found response is returned exactly when the path, stripped of its
leading slashes, is neither empty nor one of `ensure`, `restart`, `state`. -/
theorem C10_routing (s : String) :
    ((∀ c ∈ s.data, c = '/') → routeOf s = Route.ensure) ∧
    (routeOf s = Route.notFound ↔
      stripLeadingSlashes s ∉
        (["", "ensure", "restart", "state"] : List String)) := by
  constructor
  · intro h
    have hnil : stripLeadingSlashes s = "" := by
      unfold stripLeadingSlashes
      have hd : s.data.dropWhile (fun c => decide (c = '/')) = [] :=
        List.dropWhile_eq_nil_iff.mpr (by intro x hx; simpa using h x hx)
      rw [hd]
    unfold routeOf
    rw [hnil]
    decide
  · unfold routeOf
    dsimp only
    by_cases h0 : stripLeadingSlashes s = ""
    · simp [h0]
    · by_cases h1 : stripLeadingSlashes s = "ensure"
      · simp [h0, h1]
      · by_cases h2 : stripLeadingSlashes s = "restart"
        · simp [h0, h1, h2]
        · by_cases h3 : stripLeadingSlashes s = "state"
          · simp [h0, h1, h2, h3]
          · simp [h0, h1, h2, h3]

/-- C10 witness: concrete dispatches — the root path and the empty path go
to ensure, an unknown path gets 404, and the state path does not. -/
theorem C10_routing_witness :
    routeOf "/" = Route.ensure ∧
    routeOf "" = Route.ensure ∧
    routeOf "/bogus" = Route.notFound ∧
    routeOf "/state" ≠ Route.notFound :=
  ⟨(C10_routing "/").1 (by decide),
   (C10_routing "").1 (by decide),
   (C10_routing "/bogus").2.mpr (by decide),
   fun h => absurd (by decide : stripLeadingSlashes "/state" ∈
     (["", "ensure", "restart", "state"] : List String))
     ((C10_routing "/state").2.mp h)⟩

end Moltbot
